import Mathlib

/-!
Verification of the transactional / query-execution layer of the
`sqlx-wrapper` repository (Go package `wsqlx`).

The source tree contains two generations of the instrumented data-access
facade, which coexist under `src/`:

* `V1` — the facade of `src/unnamed/part_004` (span named by the raw query,
  joins the `ErrRecordNoRows` sentinel onto empty single-row reads);
* `V2` — the facade of `src/rdbms_impl.go` (configurable span-name function
  installed by `NewRdbms`, `errors.Join` of work error and rollback error
  inside `DoTx`);
* `SqlxTx` — the standalone transaction runner of `src/db_tx_impl.go`.

Go errors are modelled as finite trees supporting `errors.Is`-style chain
inspection; the database primitives (begin/rollback/commit, execute, scan,
close) are modelled as oracles supplied through explicit environment
records, and each operation returns its result together with a trace of the
span state and of the resolution actions it took.
-/

namespace Wsqlx

/-- Model of a Go `error` value as a tree supporting `errors.Is` chain
inspection.  `sentinel s` is a leaf error (e.g. a package-level
`errors.New(s)` such as `sql.ErrNoRows` or `ErrRecordNoRows`, or an error
produced by the driver); `wrapf m e` is `fmt.Errorf` with a `%w` verb
wrapping `e` (as `errTracer` in `src/error.go` produces); `join2 a b` is
`errors.Join(a, b)` with both arguments non-nil.  Distinct leaf labels model
distinct error identities. -/
inductive GoError where
  | sentinel (msg : String)
  | wrapf (msg : String) (e : GoError)
  | join2 (a b : GoError)
  deriving DecidableEq, Repr

/-- Model of Go `errors.Is`: at every node the error is compared with the
target, and unwrapping descends through `%w` wrappers and through both
arms of an `errors.Join`. -/
def errorsIs : GoError → GoError → Bool
  | .sentinel m, t => GoError.sentinel m == t
  | .wrapf m e, t => GoError.wrapf m e == t || errorsIs e t
  | .join2 a b, t => GoError.join2 a b == t || errorsIs a t || errorsIs b t

/-- Model of `errTracer` (`src/error.go`): wraps the error with the calling
frame's function/line via `fmt.Errorf("%s:%d: %w", ...)`.  The frame text is
a parameter, since it is runtime metadata. -/
def errTracer (frame : String) (e : GoError) : GoError := .wrapf frame e

/-- The `database/sql` sentinel `sql.ErrNoRows`. -/
def sqlErrNoRows : GoError := .sentinel "sql: no rows in result set"

/-- `ErrRecordNoRows = errors.New("record not found")` (`src/error.go`). -/
def ErrRecordNoRows : GoError := .sentinel "record not found"

/-- Ephemeral tracing-span state: the errors recorded through
`span.RecordError` (with error status) and the string attributes set through
`span.SetAttributes`. -/
structure Span where
  recorded : List GoError := []
  attrs : List (String × String) := []
  deriving DecidableEq, Repr

/-- Appends one string attribute, modelling `span.SetAttributes`. -/
def Span.setAttr (sp : Span) (k v : String) : Span :=
  { sp with attrs := sp.attrs ++ [(k, v)] }

/-- Model of `recordError` (`src/util.go`): records the error on the span and
sets error status, unless the error is nil or matches `sql.ErrNoRows`. -/
def recordError (sp : Span) (e : Option GoError) : Span :=
  match e with
  | none => sp
  | some e =>
    if errorsIs e sqlErrNoRows then sp
    else { sp with recorded := sp.recorded ++ [e] }

/-- Outcome of the caller-supplied work function `fn` inside `DoTx`: either a
normal return carrying an optional error, or a panic with an opaque
payload. -/
inductive WorkOutcome where
  | ret (e : Option GoError)
  | panics (payload : String)
  deriving DecidableEq, Repr

/-- Result of a `DoTx` call: a normal return carrying an optional error, or a
propagated panic. -/
inductive TxResult where
  | ret (e : Option GoError)
  | panicked (payload : String)
  deriving DecidableEq, Repr

/-- Oracle for the database primitives a `DoTx` run touches: the outcome of
`BeginTxx`, of `tx.Rollback()` and of `tx.Commit()` (`none` = success). -/
structure TxEnv where
  beginErr : Option GoError := none
  rollbackErr : Option GoError := none
  commitErr : Option GoError := none
  deriving DecidableEq, Repr

/-- Trace of a `DoTx` run: the transaction span plus which resolution action
(rollback / commit) was invoked. -/
structure TxTrace where
  span : Span := {}
  rolledBack : Bool := false
  committed : Bool := false
  deriving DecidableEq, Repr

namespace V2

/-- Model of `(*rdbms).DoTx` (`src/rdbms_impl.go:252-309`).  After `BeginTxx`
the body runs `fn`, records a non-nil work error on the span, and the
deferred resolution function then (a) on panic: rolls back, records the
rollback error and the panic, and re-raises the panic; (b) on a work error:
rolls back and, when rollback fails, returns `errors.Join(err, errRollback)`;
(c) on success: commits and returns the commit error, if any. -/
def DoTx (env : TxEnv) (work : WorkOutcome) : TxResult × TxTrace :=
  let sp : Span := {}
  match env.beginErr with
  | some e =>
    (.ret (some (errTracer "wsqlx.(*rdbms).DoTx" e)),
     { span := recordError sp (some e) })
  | none =>
    match work with
    | .panics p =>
      let sp := sp.setAttr "db.tx.operation" "rollback"
      let sp :=
        match env.rollbackErr with
        | some r => (recordError sp (some r)).setAttr "db.tx.status" "rollback failed"
        | none => sp.setAttr "db.tx.status" "rollback successfully"
      let sp := recordError sp (some (.sentinel ("panic occurred: " ++ p)))
      (.panicked p, { span := sp, rolledBack := true })
    | .ret (some e) =>
      let sp := recordError sp (some e)
      let sp := sp.setAttr "db.tx.operation" "rollback"
      match env.rollbackErr with
      | some r =>
        (.ret (some (.join2 e r)),
         { span := (recordError sp (some r)).setAttr "db.tx.status" "rollback failed",
           rolledBack := true })
      | none =>
        (.ret (some e),
         { span := sp.setAttr "db.tx.status" "rollback successfully",
           rolledBack := true })
    | .ret none =>
      let sp := sp.setAttr "db.tx.operation" "commit"
      match env.commitErr with
      | some c =>
        (.ret (some c),
         { span := (recordError sp (some c)).setAttr "db.tx.status" "commit failed",
           committed := true })
      | none =>
        (.ret none,
         { span := sp.setAttr "db.tx.status" "commit successfully",
           committed := true })

end V2

namespace SqlxTx

/-- Model of `(*sqlxTransaction).DoTx` (`src/db_tx_impl.go:24-65`).  Same
shape as the `rdbms` variant, but on a work error with failing rollback the
rollback error REPLACES the work error (`err = errRollback`), and on panic
the rollback error is recorded before the original panic is re-raised. -/
def DoTx (env : TxEnv) (work : WorkOutcome) : TxResult × TxTrace :=
  let sp : Span := {}
  match env.beginErr with
  | some e =>
    (.ret (some (errTracer "wsqlx.(*sqlxTransaction).DoTx" e)),
     { span := recordError sp (some e) })
  | none =>
    match work with
    | .panics p =>
      (.panicked p, { span := recordError sp env.rollbackErr, rolledBack := true })
    | .ret (some e) =>
      match env.rollbackErr with
      | some r =>
        (.ret (some r), { span := recordError sp (some r), rolledBack := true })
      | none =>
        (.ret (some e), { span := sp, rolledBack := true })
    | .ret none =>
      match env.commitErr with
      | some c =>
        (.ret (some c), { span := recordError sp (some c), committed := true })
      | none =>
        (.ret none, { span := sp, committed := true })

end SqlxTx

/-- Go `int64` arithmetic wraps on overflow: this reduces an unbounded `Int`
into the representable range `[-2 ^ 63, 2 ^ 63)` modulo `2 ^ 64`, which is
the value a Go `int64` operation actually produces. -/
def int64Wrap (x : Int) : Int := (x + 2 ^ 63) % 2 ^ 64 - 2 ^ 63

/-- `PaginationInput` (`src/unnamed/part_001`).  `Page` and `PageSize` are Go
`int64` values, modelled as `Int`; the `int64` arithmetic performed on them
by `Offset` wraps via `int64Wrap`, and the `uint64(...)` casts in
`QuerySqPagination` are modelled by `uint64OfInt64`. -/
structure PaginationInput where
  Page : Int
  PageSize : Int
  deriving DecidableEq, Repr

/-- `PaginationOutput` (`src/unnamed/part_001`). -/
structure PaginationOutput where
  Page : Int
  PageSize : Int
  PageCount : Int
  TotalData : Int
  deriving DecidableEq, Repr

/-- Model of `(PaginationInput).Offset` (`src/unnamed/part_001:25-32`):
`offset = (p.Page - 1) * p.PageSize` computed in Go `int64`, so both the
subtraction and the multiplication wrap modulo `2 ^ 64`. -/
def PaginationInput.Offset (p : PaginationInput) : Int :=
  if p.Page > 0 then int64Wrap (int64Wrap (p.Page - 1) * p.PageSize) else 0

/-- Model of `getPageCount` (`src/unnamed/part_001:34-49`).  Go `/` and `%`
on `int64` truncate toward zero, i.e. `Int.tdiv` / `Int.tmod`. -/
def getPageCount (pageSize totalData : Int) : Int :=
  if pageSize > 0 then
    if pageSize ≥ totalData then 1
    else if totalData.tmod pageSize = 0 then totalData.tdiv pageSize
    else totalData.tdiv pageSize + 1
  else 1

/-- Model of `CreatePaginationOutput` (`src/unnamed/part_001:51-59`). -/
def CreatePaginationOutput (input : PaginationInput) (totalData : Int) :
    PaginationOutput :=
  { Page := input.Page, PageSize := input.PageSize,
    PageCount := getPageCount input.PageSize totalData,
    TotalData := totalData }

/-- Go conversion `uint64(x)` applied to an `int64` value: two's-complement
reinterpretation, i.e. reduction modulo `2 ^ 64` into `[0, 2 ^ 64)`. -/
def uint64OfInt64 (x : Int) : Nat := (x % (2 : Int) ^ 64).toNat

/-- Abstract model of a squirrel `SelectBuilder`: an opaque base descriptor
plus the limit/offset clauses that `QuerySqPagination` attaches. -/
structure SelectBuilder where
  base : String
  limit : Option Nat := none
  offset : Option Nat := none
  deriving DecidableEq, Repr

/-- Model of `squirrel.SelectBuilder.Limit` (takes a `uint64`). -/
def SelectBuilder.Limit (q : SelectBuilder) (n : Nat) : SelectBuilder :=
  { q with limit := some n }

/-- Model of `squirrel.SelectBuilder.Offset` (takes a `uint64`). -/
def SelectBuilder.Offset (q : SelectBuilder) (n : Nat) : SelectBuilder :=
  { q with offset := some n }

/-- Model of a Go panic value relevant to this layer: the string-slice bounds
violation raised by `s[0:15]` in `defaultSpanNameFN`, carrying the requested
high bound and the actual string length. -/
inductive GoPanic where
  | sliceOutOfRange (hi len : Nat)
  deriving DecidableEq, Repr

/-- Model of `defaultSpanNameFN` (`src/rdbms_impl.go:69-71`):
`fmt.Sprintf("%s...", s[0:15])`.  Go string slicing `s[0:15]` panics with a
slice-bounds-out-of-range runtime error whenever `len(s) < 15`. -/
def defaultSpanNameFN (s : String) : Except GoPanic String :=
  if s.length < 15 then .error (.sliceOutOfRange 15 s.length)
  else .ok (s.take 15 ++ "...")

/-- Span-name configuration of the `V2` facade: `NewRdbms` installs the
default function unless `WithSpanNameFunc` overrides it with a custom (total)
function. -/
inductive SpanNamer where
  | dflt
  | custom (f : String → String)

/-- Runs the configured span-name function on the rendered statement; the
default function may panic. -/
def runSpanNamer : SpanNamer → String → Except GoPanic String
  | .dflt, s => defaultSpanNameFN s
  | .custom f, s => .ok (f s)

/-- Configuration fields of the `V2` `rdbms` facade that the claims touch
(`src/rdbms_impl.go:93-104`). -/
structure Rdbms where
  spanNameFunc : SpanNamer
  includeParams : Bool

/-- Model of the `WithSpanNameFunc` option (`src/rdbms_impl.go:30-38`). -/
def WithSpanNameFunc (f : String → String) : Rdbms → Rdbms :=
  fun cfg => { cfg with spanNameFunc := .custom f }

/-- Model of the `WithOutIncludeQueryParameters` option
(`src/rdbms_impl.go:40-44`). -/
def WithOutIncludeQueryParameters : Rdbms → Rdbms :=
  fun cfg => { cfg with includeParams := false }

/-- Model of `NewRdbms` (`src/rdbms_impl.go:73-91`): the facade starts with
`spanNameFunc = defaultSpanNameFN` and `includeParams = true`, then the
option functions are applied in order. -/
def NewRdbms (opt : List (Rdbms → Rdbms)) : Rdbms :=
  opt.foldl (fun cfg o => o cfg) { spanNameFunc := .dflt, includeParams := true }

/-- Oracle for one `QuerySq` call: the outcome of `query.ToSql()` (statement
text and rendered arguments), of `QueryxContext` (`none` = a row stream was
produced), of the deferred `rows.Close()`, and the row callback's return
value. -/
structure QueryEnv where
  toSql : Except GoError (String × List String)
  execErr : Option GoError := none
  closeErr : Option GoError := none
  callbackResult : Option GoError := none
  deriving Repr

/-- Trace of a `QuerySq` call: the span state, whether the underlying execute
was reached, and whether the row stream was closed before returning. -/
structure QueryTrace where
  span : Span := {}
  executed : Bool := false
  rowsClosed : Bool := false
  deriving DecidableEq, Repr

/-- Oracle for one `QueryRowSq` call: the outcome of `query.ToSql()` and of
the two possible scan calls on the fetched row. -/
structure RowEnv where
  toSql : Except GoError (String × List String)
  scanErr : Option GoError := none
  structScanErr : Option GoError := none
  deriving Repr

/-- `QueryRowScanType` constants (`QueryRowScanTypeDefault = 1`,
`QueryRowScanTypeStruct = 2`). -/
inductive QueryRowScanType where
  | dflt
  | struct
  deriving DecidableEq, Repr

/-- The scan result `QueryRowSq` observes: `res.StructScan(dest)` for the
struct scan type, `res.Scan(dest)` otherwise (the Go `switch` default). -/
def rowScanResult (env : RowEnv) : QueryRowScanType → Option GoError
  | .struct => env.structScanErr
  | .dflt => env.scanErr

/-- Oracle for one `ExecSq` call: the outcome of `query.ToSql()` and of
`ExecContext` (`.ok r` = an abstract driver write result `r`). -/
structure ExecEnv where
  toSql : Except GoError (String × List String)
  execResult : Except GoError Nat := .ok 0
  deriving Repr

namespace V1

/-- Model of the `part_004` `(*rdbms).QuerySq` (`src/unnamed/part_004:26-56`):
render, span (named by the raw query — total, no panic), execute; on execute
success run the callback, then the deferred `rows.Close()` runs before the
return, recording a close failure on the span without touching the returned
error. -/
def QuerySq (env : QueryEnv) : Option GoError × QueryTrace :=
  match env.toSql with
  | .error e => (some (errTracer "wsqlx.(*rdbms).QuerySq" e), {})
  | .ok _ =>
    match env.execErr with
    | some e => (some e, { span := recordError {} (some e), executed := true })
    | none =>
      match env.closeErr with
      | some ce =>
        (env.callbackResult,
         { span := (recordError {} (some ce)).setAttr "db.system.close.rows" "failed",
           executed := true, rowsClosed := true })
      | none =>
        (env.callbackResult,
         { span := Span.setAttr {} "db.system.close.rows" "successfully",
           executed := true, rowsClosed := true })

/-- Model of the `part_004` `(*rdbms).QueryRowSq`
(`src/unnamed/part_004:81-112`): on a scan error matching `sql.ErrNoRows` the
error is joined with `ErrRecordNoRows` and NOT recorded on the span; any
other scan error is recorded; either way the returned error is wrapped by
`errTracer`. -/
def QueryRowSq (env : RowEnv) (scanType : QueryRowScanType) :
    Option GoError × Span :=
  match env.toSql with
  | .error e => (some (errTracer "wsqlx.(*rdbms).QueryRowSq" e), {})
  | .ok _ =>
    match rowScanResult env scanType with
    | none => (none, {})
    | some e =>
      if errorsIs e sqlErrNoRows then
        (some (errTracer "wsqlx.(*rdbms).QueryRowSq" (.join2 e ErrRecordNoRows)), {})
      else
        (some (errTracer "wsqlx.(*rdbms).QueryRowSq" e), recordError {} (some e))

end V1

namespace V2

/-- Model of `(*rdbms).QuerySq` (`src/rdbms_impl.go:156-179`): after a
successful render, the span start evaluates `s.spanNameFunc(rawQuery)`; a
panic there (default function, statement shorter than 15 characters)
propagates out of `QuerySq` before anything executes.  Otherwise the body is
the same as the `V1` variant. -/
def QuerySq (cfg : Rdbms) (env : QueryEnv) :
    Except GoPanic (Option GoError × QueryTrace) :=
  match env.toSql with
  | .error e => .ok (some (errTracer "wsqlx.(*rdbms).QuerySq" e), {})
  | .ok (stmt, _args) =>
    match runSpanNamer cfg.spanNameFunc stmt with
    | .error p => .error p
    | .ok _name =>
      match env.execErr with
      | some e => .ok (some e, { span := recordError {} (some e), executed := true })
      | none =>
        match env.closeErr with
        | some ce =>
          .ok (env.callbackResult,
            { span := (recordError {} (some ce)).setAttr "db.system.close.rows" "failed",
              executed := true, rowsClosed := true })
        | none =>
          .ok (env.callbackResult,
            { span := Span.setAttr {} "db.system.close.rows" "successfully",
              executed := true, rowsClosed := true })

/-- Model of `(*rdbms).ExecSq` (`src/rdbms_impl.go:181-198`): render, span
(through `spanNameFunc`, which may panic), execute; an execute failure is
recorded on the span and returned. -/
def ExecSq (cfg : Rdbms) (env : ExecEnv) :
    Except GoPanic (Except GoError Nat × Span) :=
  match env.toSql with
  | .error e => .ok (.error (errTracer "wsqlx.(*rdbms).ExecSq" e), {})
  | .ok (stmt, _args) =>
    match runSpanNamer cfg.spanNameFunc stmt with
    | .error p => .error p
    | .ok _name =>
      match env.execResult with
      | .error e => .ok (.error e, recordError {} (some e))
      | .ok r => .ok (.ok r, {})

/-- Model of `(*rdbms).QueryRowSq` (`src/rdbms_impl.go:200-224`): render,
span (through `spanNameFunc`, which may panic), scan; a scan error is
recorded on the span only when it does not match `sql.ErrNoRows`, and the
returned error is the scan error wrapped by `errTracer` — unlike the `V1`
variant, `ErrRecordNoRows` is never joined on. -/
def QueryRowSq (cfg : Rdbms) (env : RowEnv) (scanType : QueryRowScanType) :
    Except GoPanic (Option GoError × Span) :=
  match env.toSql with
  | .error e => .ok (some (errTracer "wsqlx.(*rdbms).QueryRowSq" e), {})
  | .ok (stmt, _args) =>
    match runSpanNamer cfg.spanNameFunc stmt with
    | .error p => .error p
    | .ok _name =>
      match rowScanResult env scanType with
      | none => .ok (none, {})
      | some e =>
        if errorsIs e sqlErrNoRows then
          .ok (some (errTracer "wsqlx.(*rdbms).QueryRowSq" e), {})
        else
          .ok (some (errTracer "wsqlx.(*rdbms).QueryRowSq" e), recordError {} (some e))

end V2

/-- Oracle for one `QuerySqPagination` call: the outcome of the count
single-row read (a scalar total) and of the row-stream read. -/
structure PagEnv where
  countResult : Except GoError Int
  rowsErr : Option GoError := none
  deriving Repr

/-- Trace of a `QuerySqPagination` call: the row query after the
`Limit`/`Offset` attachment performed unconditionally at the top of the
function. -/
structure PagTrace where
  builtRowQuery : SelectBuilder
  deriving DecidableEq, Repr

/-- Model of `(*rdbms).QuerySqPagination` (`src/unnamed/part_004:113-133`,
identically `src/rdbms_impl.go:226-246`): attaches
`Limit(uint64(paginationInput.PageSize))` and `Offset(uint64(offset))` to the
row query, runs the count query, then the row query, and on success
assembles the output via `CreatePaginationOutput`; either failure returns a
zero-valued `PaginationOutput` with a tagged error. -/
def QuerySqPagination (env : PagEnv) (countQuery query : SelectBuilder)
    (paginationInput : PaginationInput) :
    (PaginationOutput × Option GoError) × PagTrace :=
  let _ := countQuery
  let offset := paginationInput.Offset
  let query := SelectBuilder.Limit query (uint64OfInt64 paginationInput.PageSize)
  let query := SelectBuilder.Offset query (uint64OfInt64 offset)
  let tr : PagTrace := { builtRowQuery := query }
  let res : PaginationOutput × Option GoError :=
    match env.countResult with
    | .error e =>
      ({ Page := 0, PageSize := 0, PageCount := 0, TotalData := 0 },
       some (errTracer "wsqlx.(*rdbms).QuerySqPagination" e))
    | .ok totalData =>
      match env.rowsErr with
      | some e =>
        ({ Page := 0, PageSize := 0, PageCount := 0, TotalData := 0 },
         some (errTracer "wsqlx.(*rdbms).QuerySqPagination" e))
      | none => (CreatePaginationOutput paginationInput totalData, none)
  (res, tr)

/-- Every error matches itself under the modelled `errors.Is`. -/
theorem errorsIs_self (e : GoError) : errorsIs e e = true := by
  cases e <;> simp [errorsIs]

/-- The `int64` wrap is the identity on values already inside the
representable range `[-2 ^ 63, 2 ^ 63)`. -/
theorem int64Wrap_eq_of_range (x : Int)
    (h1 : -(2 : Int) ^ 63 ≤ x) (h2 : x < 2 ^ 63) : int64Wrap x = x := by
  unfold int64Wrap
  have h64 : (2 : Int) ^ 64 = 18446744073709551616 := by norm_num
  have h63 : (2 : Int) ^ 63 = 9223372036854775808 := by norm_num
  rw [h64, h63]
  rw [h63] at h1 h2
  omega

/-- C7 counterexample: at the in-range `int64` input
`Page = 2 ^ 62 + 1, PageSize = 4` the program's offset is the wrapped value
`0`, while the claimed value `(Page − 1) × PageSize = 2 ^ 64` is not `0`. -/
theorem C7_counterexample :
    PaginationInput.Offset { Page := 2 ^ 62 + 1, PageSize := 4 } = 0 ∧
    ((2 ^ 62 + 1 : Int) - 1) * 4 = 2 ^ 64 ∧
    (0 : Int) ≠ 2 ^ 64 := by
  refine ⟨?_, by norm_num, by norm_num⟩
  norm_num [PaginationInput.Offset, int64Wrap]

/-- C7 (amended): the computed offset equals `0` when `Page ≤ 0`, and equals
`(Page − 1) × PageSize` when `Page ≥ 1`, provided `Page` is a representable
`int64` and the mathematical product stays inside the `int64` range;
otherwise the `int64` multiplication wraps modulo `2 ^ 64`. -/
theorem C7_offset_spec (p : PaginationInput)
    (hpage : p.Page < 2 ^ 63)
    (hprod1 : -(2 : Int) ^ 63 ≤ (p.Page - 1) * p.PageSize)
    (hprod2 : (p.Page - 1) * p.PageSize < 2 ^ 63) :
    (p.Page ≤ 0 → p.Offset = 0) ∧
    (1 ≤ p.Page → p.Offset = (p.Page - 1) * p.PageSize) := by
  unfold PaginationInput.Offset
  constructor
  · intro h
    rw [if_neg (by omega)]
  · intro h
    rw [if_pos (by omega)]
    rw [int64Wrap_eq_of_range (p.Page - 1) (by norm_num; omega) (by omega),
      int64Wrap_eq_of_range _ hprod1 hprod2]

/-- Witness for the amended C7 at `Page = 0` and at `Page = 3,
PageSize = 10`, both inside the `int64` range. -/
theorem C7_offset_witness :
    PaginationInput.Offset { Page := 0, PageSize := 10 } = 0 ∧
    PaginationInput.Offset { Page := 3, PageSize := 10 } = (3 - 1) * 10 :=
  ⟨(C7_offset_spec { Page := 0, PageSize := 10 }
      (by norm_num) (by norm_num) (by norm_num)).1 (by decide),
   (C7_offset_spec { Page := 3, PageSize := 10 }
      (by norm_num) (by norm_num) (by norm_num)).2 (by decide)⟩

/-- C2: with a non-nil work error and a successful rollback, both `DoTx`
implementations return exactly the work error, unchanged. -/
theorem C2_error_rollback_ok (env : TxEnv) (e : GoError)
    (hb : env.beginErr = none) (hr : env.rollbackErr = none) :
    (V2.DoTx env (.ret (some e))).1 = .ret (some e) ∧
    (SqlxTx.DoTx env (.ret (some e))).1 = .ret (some e) := by
  constructor <;> simp [V2.DoTx, SqlxTx.DoTx, hb, hr]

/-- Witness for C2 on an all-success environment and the error `"boom"`. -/
theorem C2_error_rollback_ok_witness :
    (V2.DoTx {} (.ret (some (.sentinel "boom")))).1 = .ret (some (.sentinel "boom")) ∧
    (SqlxTx.DoTx {} (.ret (some (.sentinel "boom")))).1 = .ret (some (.sentinel "boom")) :=
  C2_error_rollback_ok {} (.sentinel "boom") rfl rfl

/-- C3: when the work function panics, both `DoTx` implementations roll back
and re-raise the original panic payload, whatever the rollback outcome. -/
theorem C3_panic_reraised (env : TxEnv) (p : String) (hb : env.beginErr = none) :
    (V2.DoTx env (.panics p)).1 = .panicked p ∧
    (V2.DoTx env (.panics p)).2.rolledBack = true ∧
    (SqlxTx.DoTx env (.panics p)).1 = .panicked p ∧
    (SqlxTx.DoTx env (.panics p)).2.rolledBack = true := by
  refine ⟨?_, ?_, ?_, ?_⟩ <;> simp [V2.DoTx, SqlxTx.DoTx, hb]

/-- Witness for C3 with payload `"kaboom"` and a FAILING rollback. -/
theorem C3_panic_reraised_witness :
    (V2.DoTx { rollbackErr := some (.sentinel "rb failed") } (.panics "kaboom")).1 =
      .panicked "kaboom" ∧
    (V2.DoTx { rollbackErr := some (.sentinel "rb failed") } (.panics "kaboom")).2.rolledBack = true ∧
    (SqlxTx.DoTx { rollbackErr := some (.sentinel "rb failed") } (.panics "kaboom")).1 =
      .panicked "kaboom" ∧
    (SqlxTx.DoTx { rollbackErr := some (.sentinel "rb failed") } (.panics "kaboom")).2.rolledBack = true :=
  C3_panic_reraised { rollbackErr := some (.sentinel "rb failed") } "kaboom" rfl

/-- C4: when the work function returns nil, both `DoTx` implementations
commit (and never roll back) and return the commit outcome: nil on commit
success, the commit error otherwise. -/
theorem C4_commit_path (env : TxEnv) (hb : env.beginErr = none) :
    (V2.DoTx env (.ret none)).1 = .ret env.commitErr ∧
    (V2.DoTx env (.ret none)).2.committed = true ∧
    (V2.DoTx env (.ret none)).2.rolledBack = false ∧
    (SqlxTx.DoTx env (.ret none)).1 = .ret env.commitErr ∧
    (SqlxTx.DoTx env (.ret none)).2.committed = true ∧
    (SqlxTx.DoTx env (.ret none)).2.rolledBack = false := by
  rcases hc : env.commitErr with _ | c <;>
    refine ⟨?_, ?_, ?_, ?_, ?_, ?_⟩ <;>
      simp [V2.DoTx, SqlxTx.DoTx, hb, hc]

/-- Witness for C4 on a failing commit: the commit error is returned. -/
theorem C4_commit_path_witness :
    (V2.DoTx { commitErr := some (.sentinel "commit failed") } (.ret none)).1 =
      .ret (some (.sentinel "commit failed")) ∧
    (V2.DoTx { commitErr := some (.sentinel "commit failed") } (.ret none)).2.committed = true ∧
    (V2.DoTx { commitErr := some (.sentinel "commit failed") } (.ret none)).2.rolledBack = false ∧
    (SqlxTx.DoTx { commitErr := some (.sentinel "commit failed") } (.ret none)).1 =
      .ret (some (.sentinel "commit failed")) ∧
    (SqlxTx.DoTx { commitErr := some (.sentinel "commit failed") } (.ret none)).2.committed = true ∧
    (SqlxTx.DoTx { commitErr := some (.sentinel "commit failed") } (.ret none)).2.rolledBack = false :=
  C4_commit_path { commitErr := some (.sentinel "commit failed") } rfl

/-- C1 counterexample: in `(*sqlxTransaction).DoTx` (`src/db_tx_impl.go`),
when the work function fails with `"original work error"` and the rollback
fails with `"rollback failure"`, the returned error is exactly the rollback
error, and its chain does NOT contain the original work error. -/
theorem C1_counterexample :
    (SqlxTx.DoTx { rollbackErr := some (.sentinel "rollback failure") }
        (.ret (some (.sentinel "original work error")))).1 =
      .ret (some (.sentinel "rollback failure")) ∧
    errorsIs (.sentinel "rollback failure") (.sentinel "original work error") = false :=
  ⟨rfl, by decide⟩

/-- C1 (amended): in the `rdbms` facade's `DoTx` (`src/rdbms_impl.go`), a work
error with a failing rollback yields `errors.Join(err, errRollback)`, whose
chain contains both errors; in the `sqlxTransaction` variant
(`src/db_tx_impl.go`) the rollback error replaces the work error. -/
theorem C1_join_on_rollback_failure (env : TxEnv) (e r : GoError)
    (hb : env.beginErr = none) (hr : env.rollbackErr = some r) :
    (V2.DoTx env (.ret (some e))).1 = .ret (some (.join2 e r)) ∧
    errorsIs (.join2 e r) e = true ∧
    errorsIs (.join2 e r) r = true ∧
    (SqlxTx.DoTx env (.ret (some e))).1 = .ret (some r) := by
  refine ⟨?_, ?_, ?_, ?_⟩
  · simp [V2.DoTx, hb, hr]
  · simp [errorsIs, errorsIs_self]
  · simp [errorsIs, errorsIs_self]
  · simp [SqlxTx.DoTx, hb, hr]

/-- Witness for the amended C1 on concrete work and rollback errors. -/
theorem C1_join_on_rollback_failure_witness :
    (V2.DoTx { rollbackErr := some (.sentinel "rb") }
        (.ret (some (.sentinel "work")))).1 =
      .ret (some (.join2 (.sentinel "work") (.sentinel "rb"))) ∧
    errorsIs (.join2 (.sentinel "work") (.sentinel "rb")) (.sentinel "work") = true ∧
    errorsIs (.join2 (.sentinel "work") (.sentinel "rb")) (.sentinel "rb") = true ∧
    (SqlxTx.DoTx { rollbackErr := some (.sentinel "rb") }
        (.ret (some (.sentinel "work")))).1 =
      .ret (some (.sentinel "rb")) :=
  C1_join_on_rollback_failure { rollbackErr := some (.sentinel "rb") }
    (.sentinel "work") (.sentinel "rb") rfl rfl

/-- C6: the page count is `1` whenever `pageSize ≤ 0`, `1` whenever
`0 < pageSize` and `totalData ≤ pageSize`, and for `0 < pageSize < totalData`
it is the ceiling of `totalData / pageSize` — characterized as the unique
integer whose multiples of `pageSize` first reach `totalData`. -/
theorem C6_getPageCount_spec (pageSize totalData : Int) :
    (pageSize ≤ 0 → getPageCount pageSize totalData = 1) ∧
    (0 < pageSize → totalData ≤ pageSize → getPageCount pageSize totalData = 1) ∧
    (0 < pageSize → pageSize < totalData →
      totalData ≤ getPageCount pageSize totalData * pageSize ∧
      (getPageCount pageSize totalData - 1) * pageSize < totalData) := by
  refine ⟨?_, ?_, ?_⟩
  · intro h
    unfold getPageCount
    rw [if_neg (by omega)]
  · intro h1 h2
    unfold getPageCount
    rw [if_pos h1, if_pos (by omega)]
  · intro h1 h2
    have htd : (0 : Int) ≤ totalData := by omega
    have hmod : totalData.tmod pageSize = totalData % pageSize :=
      Int.tmod_eq_emod htd (le_of_lt h1)
    have hdiv : totalData.tdiv pageSize = totalData / pageSize :=
      Int.tdiv_eq_ediv htd (le_of_lt h1)
    have hkey := Int.ediv_add_emod totalData pageSize
    have hr0 : 0 ≤ totalData % pageSize := Int.emod_nonneg totalData (by omega)
    have hrlt : totalData % pageSize < pageSize := Int.emod_lt_of_pos totalData h1
    unfold getPageCount
    rw [if_pos h1, if_neg (by omega), hmod, hdiv]
    have hc : totalData / pageSize * pageSize = pageSize * (totalData / pageSize) :=
      mul_comm _ _
    by_cases hz : totalData % pageSize = 0
    · rw [if_pos hz]
      have e1 : (totalData / pageSize - 1) * pageSize =
          totalData / pageSize * pageSize - pageSize := by ring
      exact ⟨by linarith [hc], by linarith [hc, e1]⟩
    · rw [if_neg hz]
      have hrpos : 0 < totalData % pageSize := lt_of_le_of_ne hr0 (Ne.symm hz)
      have e2 : (totalData / pageSize + 1) * pageSize =
          totalData / pageSize * pageSize + pageSize := by ring
      have e3 : (totalData / pageSize + 1 - 1) * pageSize =
          totalData / pageSize * pageSize := by ring
      exact ⟨by linarith [hc, e2], by linarith [hc, e3]⟩

/-- Witness for C6 on `pageSize = 0`, on `(10, 7)` and on `(10, 25)`
(where the page count `3` satisfies `25 ≤ 3 * 10` and `(3 - 1) * 10 < 25`). -/
theorem C6_getPageCount_witness :
    getPageCount 0 7 = 1 ∧
    getPageCount 10 7 = 1 ∧
    (25 ≤ getPageCount 10 25 * 10 ∧ (getPageCount 10 25 - 1) * 10 < 25) :=
  ⟨(C6_getPageCount_spec 0 7).1 (by decide),
   (C6_getPageCount_spec 10 7).2.1 (by decide) (by decide),
   (C6_getPageCount_spec 10 25).2.2 (by decide) (by decide)⟩

/-- C5 counterexample: the `rdbms_impl.go` `QueryRowSq` on a no-rows
single-row read returns only the call-site-tagged `sql.ErrNoRows`; its chain
does NOT contain the `ErrRecordNoRows` sentinel. -/
theorem C5_counterexample :
    (V2.QueryRowSq (NewRdbms [])
        { toSql := .ok ("SELECT id, name FROM users WHERE id = $1", ["1"]),
          scanErr := some sqlErrNoRows }
        .dflt) =
      .ok (some (errTracer "wsqlx.(*rdbms).QueryRowSq" sqlErrNoRows), {}) ∧
    errorsIs (errTracer "wsqlx.(*rdbms).QueryRowSq" sqlErrNoRows) ErrRecordNoRows = false :=
  ⟨rfl, by decide⟩

/-- C5 (amended): in the `part_004` facade, a no-rows single-row read returns
the scan error joined with `ErrRecordNoRows` and wrapped by `errTracer`, so
the sentinel is detectable by chain inspection after tagging, and nothing is
recorded on the span; the `rdbms_impl.go` facade instead returns only the
tagged scan error (likewise without recording a span error). -/
theorem C5_record_not_found_sentinel (env : RowEnv) (st : QueryRowScanType)
    (stmt : String) (args : List String) (e : GoError) (cfg : Rdbms) (nm : String)
    (hsql : env.toSql = .ok (stmt, args))
    (hscan : rowScanResult env st = some e)
    (hnr : errorsIs e sqlErrNoRows = true)
    (hnm : runSpanNamer cfg.spanNameFunc stmt = .ok nm) :
    (V1.QueryRowSq env st).1 =
      some (errTracer "wsqlx.(*rdbms).QueryRowSq" (.join2 e ErrRecordNoRows)) ∧
    errorsIs (errTracer "wsqlx.(*rdbms).QueryRowSq" (.join2 e ErrRecordNoRows))
      ErrRecordNoRows = true ∧
    (V1.QueryRowSq env st).2 = ({} : Span) ∧
    V2.QueryRowSq cfg env st =
      .ok (some (errTracer "wsqlx.(*rdbms).QueryRowSq" e), ({} : Span)) := by
  refine ⟨?_, ?_, ?_, ?_⟩
  · simp [V1.QueryRowSq, hsql, hscan, hnr]
  · simp [errTracer, errorsIs, ErrRecordNoRows]
  · simp [V1.QueryRowSq, hsql, hscan, hnr]
  · simp [V2.QueryRowSq, hsql, hscan, hnr, hnm]

/-- Witness for the amended C5 on a concrete no-rows read with the default
span-name function of `NewRdbms`. -/
theorem C5_record_not_found_sentinel_witness :
    (V1.QueryRowSq
        { toSql := .ok ("SELECT id, name FROM users WHERE id = $1", ["1"]),
          scanErr := some sqlErrNoRows } .dflt).1 =
      some (errTracer "wsqlx.(*rdbms).QueryRowSq" (.join2 sqlErrNoRows ErrRecordNoRows)) ∧
    errorsIs (errTracer "wsqlx.(*rdbms).QueryRowSq" (.join2 sqlErrNoRows ErrRecordNoRows))
      ErrRecordNoRows = true ∧
    (V1.QueryRowSq
        { toSql := .ok ("SELECT id, name FROM users WHERE id = $1", ["1"]),
          scanErr := some sqlErrNoRows } .dflt).2 = ({} : Span) ∧
    V2.QueryRowSq (NewRdbms [])
        { toSql := .ok ("SELECT id, name FROM users WHERE id = $1", ["1"]),
          scanErr := some sqlErrNoRows } .dflt =
      .ok (some (errTracer "wsqlx.(*rdbms).QueryRowSq" sqlErrNoRows), ({} : Span)) :=
  C5_record_not_found_sentinel
    { toSql := .ok ("SELECT id, name FROM users WHERE id = $1", ["1"]),
      scanErr := some sqlErrNoRows }
    .dflt "SELECT id, name FROM users WHERE id = $1" ["1"] sqlErrNoRows
    (NewRdbms []) "SELECT id, name..." rfl rfl (by decide) rfl

/-- C8: on a successful execute, `QuerySq` closes the row stream before
returning; a close failure is recorded on the span (error record plus the
`db.system.close.rows = failed` attribute) while the returned value stays
exactly the row callback's result; on close success only the attribute
differs.  Holds for the `part_004` facade, and the `rdbms_impl.go` facade
behaves identically whenever its span-name function returns. -/
theorem C8_rows_closed (env : QueryEnv) (stmt : String) (args : List String)
    (cfg : Rdbms) (nm : String) (ce : GoError)
    (hsql : env.toSql = .ok (stmt, args))
    (hexec : env.execErr = none)
    (hclose : env.closeErr = some ce)
    (hce : errorsIs ce sqlErrNoRows = false)
    (hnm : runSpanNamer cfg.spanNameFunc stmt = .ok nm) :
    V1.QuerySq env =
      (env.callbackResult,
       { span := { recorded := [ce], attrs := [("db.system.close.rows", "failed")] },
         executed := true, rowsClosed := true }) ∧
    V1.QuerySq { env with closeErr := none } =
      (env.callbackResult,
       { span := { attrs := [("db.system.close.rows", "successfully")] },
         executed := true, rowsClosed := true }) ∧
    V2.QuerySq cfg env = .ok (V1.QuerySq env) ∧
    V2.QuerySq cfg { env with closeErr := none } =
      .ok (V1.QuerySq { env with closeErr := none }) := by
  refine ⟨?_, ?_, ?_, ?_⟩ <;>
    simp [V1.QuerySq, V2.QuerySq, hsql, hexec, hclose, hce, hnm,
      recordError, Span.setAttr]

/-- Witness for C8: concrete streaming read whose close fails while the
callback reports its own error, under the default span-name function. -/
theorem C8_rows_closed_witness :
    V1.QuerySq
        { toSql := .ok ("SELECT a FROM t WHERE a = 1", []),
          closeErr := some (.sentinel "close failed"),
          callbackResult := some (.sentinel "handler error") } =
      (some (.sentinel "handler error"),
       { span := { recorded := [.sentinel "close failed"],
                   attrs := [("db.system.close.rows", "failed")] },
         executed := true, rowsClosed := true }) ∧
    V1.QuerySq
        { toSql := .ok ("SELECT a FROM t WHERE a = 1", []),
          closeErr := none,
          callbackResult := some (.sentinel "handler error") } =
      (some (.sentinel "handler error"),
       { span := { attrs := [("db.system.close.rows", "successfully")] },
         executed := true, rowsClosed := true }) ∧
    V2.QuerySq (NewRdbms [])
        { toSql := .ok ("SELECT a FROM t WHERE a = 1", []),
          closeErr := some (.sentinel "close failed"),
          callbackResult := some (.sentinel "handler error") } =
      .ok (V1.QuerySq
        { toSql := .ok ("SELECT a FROM t WHERE a = 1", []),
          closeErr := some (.sentinel "close failed"),
          callbackResult := some (.sentinel "handler error") }) ∧
    V2.QuerySq (NewRdbms [])
        { toSql := .ok ("SELECT a FROM t WHERE a = 1", []),
          closeErr := none,
          callbackResult := some (.sentinel "handler error") } =
      .ok (V1.QuerySq
        { toSql := .ok ("SELECT a FROM t WHERE a = 1", []),
          closeErr := none,
          callbackResult := some (.sentinel "handler error") }) :=
  C8_rows_closed
    { toSql := .ok ("SELECT a FROM t WHERE a = 1", []),
      closeErr := some (.sentinel "close failed"),
      callbackResult := some (.sentinel "handler error") }
    "SELECT a FROM t WHERE a = 1" [] (NewRdbms []) "SELECT a FROM t..."
    (.sentinel "close failed") rfl rfl rfl (by decide) rfl

/-- C9: `NewRdbms` without options installs the default span-name function;
on any rendered statement shorter than 15 characters that function faults
with the out-of-range slice panic of `s[0:15]`, so `QuerySq`, `ExecSq` and
`QueryRowSq` all panic before consulting the execute/scan oracles. -/
theorem C9_short_statement_panics (stmt : String) (args : List String)
    (qenv : QueryEnv) (eenv : ExecEnv) (renv : RowEnv) (st : QueryRowScanType)
    (hshort : stmt.length < 15)
    (hq : qenv.toSql = .ok (stmt, args))
    (he : eenv.toSql = .ok (stmt, args))
    (hr : renv.toSql = .ok (stmt, args)) :
    (NewRdbms []).spanNameFunc = SpanNamer.dflt ∧
    defaultSpanNameFN stmt = .error (.sliceOutOfRange 15 stmt.length) ∧
    V2.QuerySq (NewRdbms []) qenv = .error (.sliceOutOfRange 15 stmt.length) ∧
    V2.ExecSq (NewRdbms []) eenv = .error (.sliceOutOfRange 15 stmt.length) ∧
    V2.QueryRowSq (NewRdbms []) renv st = .error (.sliceOutOfRange 15 stmt.length) := by
  refine ⟨rfl, ?_, ?_, ?_, ?_⟩ <;>
    simp [V2.QuerySq, V2.ExecSq, V2.QueryRowSq, NewRdbms, runSpanNamer,
      defaultSpanNameFN, hq, he, hr, hshort]

/-- Witness for C9 on the 8-character statement `SELECT 1` with arbitrary
oracle outcomes left at their defaults. -/
theorem C9_short_statement_panics_witness :
    (NewRdbms []).spanNameFunc = SpanNamer.dflt ∧
    defaultSpanNameFN "SELECT 1" = .error (.sliceOutOfRange 15 ("SELECT 1").length) ∧
    V2.QuerySq (NewRdbms []) { toSql := .ok ("SELECT 1", []) } =
      .error (.sliceOutOfRange 15 ("SELECT 1").length) ∧
    V2.ExecSq (NewRdbms []) { toSql := .ok ("SELECT 1", []) } =
      .error (.sliceOutOfRange 15 ("SELECT 1").length) ∧
    V2.QueryRowSq (NewRdbms []) { toSql := .ok ("SELECT 1", []) } .dflt =
      .error (.sliceOutOfRange 15 ("SELECT 1").length) :=
  C9_short_statement_panics "SELECT 1" []
    { toSql := .ok ("SELECT 1", []) } { toSql := .ok ("SELECT 1", []) }
    { toSql := .ok ("SELECT 1", []) } .dflt (by decide) rfl rfl rfl

/-- Reduction of the Go `uint64(x)` conversion on an in-range negative
`int64`: the value wraps to `x + 2 ^ 64`, which is at least `2 ^ 63`. -/
theorem uint64OfInt64_neg (x : Int) (h1 : -(2 : Int) ^ 63 ≤ x) (h2 : x < 0) :
    uint64OfInt64 x = (x + 2 ^ 64).toNat ∧ 2 ^ 63 ≤ (x + 2 ^ 64).toNat := by
  unfold uint64OfInt64
  have h64 : (2 : Int) ^ 64 = 18446744073709551616 := by norm_num
  have h63 : (2 : Int) ^ 63 = 9223372036854775808 := by norm_num
  have h63n : (2 : Nat) ^ 63 = 9223372036854775808 := by norm_num
  rw [h64] at *
  rw [h63] at h1
  rw [h63n]
  constructor
  · congr 1
    omega
  · omega

/-- C10: when `PageSize` is negative (and in `int64` range), and likewise the
computed offset, `QuerySqPagination` converts them through `uint64(...)`, so
the row query carries limit and offset wrapped modulo `2 ^ 64` — enormous
values of at least `2 ^ 63` rather than a rejection or a clamp to zero. -/
theorem C10_negative_pagination_wraps (p : PaginationInput)
    (countQuery query : SelectBuilder) (env : PagEnv)
    (hps : p.PageSize < 0) (hpsr : -(2 : Int) ^ 63 ≤ p.PageSize)
    (hoff : p.Offset < 0) (hoffr : -(2 : Int) ^ 63 ≤ p.Offset) :
    (QuerySqPagination env countQuery query p).2.builtRowQuery.limit =
      some ((p.PageSize + 2 ^ 64).toNat) ∧
    2 ^ 63 ≤ (p.PageSize + 2 ^ 64).toNat ∧
    (QuerySqPagination env countQuery query p).2.builtRowQuery.offset =
      some ((p.Offset + 2 ^ 64).toNat) ∧
    2 ^ 63 ≤ (p.Offset + 2 ^ 64).toNat := by
  obtain ⟨hl1, hl2⟩ := uint64OfInt64_neg p.PageSize hpsr hps
  obtain ⟨ho1, ho2⟩ := uint64OfInt64_neg p.Offset hoffr hoff
  refine ⟨?_, hl2, ?_, ho2⟩
  · simp [QuerySqPagination, SelectBuilder.Limit, SelectBuilder.Offset, hl1]
  · simp [QuerySqPagination, SelectBuilder.Limit, SelectBuilder.Offset, ho1]

/-- Witness for C10 at `Page = 2, PageSize = -10` (offset `-10`): both limit
and offset wrap to `2 ^ 64 - 10`. -/
theorem C10_negative_pagination_wraps_witness :
    (QuerySqPagination { countResult := .ok 0 } { base := "count" } { base := "rows" }
        { Page := 2, PageSize := -10 }).2.builtRowQuery.limit =
      some (((-10 : Int) + 2 ^ 64).toNat) ∧
    2 ^ 63 ≤ (((-10 : Int) + 2 ^ 64).toNat) ∧
    (QuerySqPagination { countResult := .ok 0 } { base := "count" } { base := "rows" }
        { Page := 2, PageSize := -10 }).2.builtRowQuery.offset =
      some ((PaginationInput.Offset { Page := 2, PageSize := -10 } + 2 ^ 64).toNat) ∧
    2 ^ 63 ≤ ((PaginationInput.Offset { Page := 2, PageSize := -10 } + 2 ^ 64).toNat) :=
  C10_negative_pagination_wraps { Page := 2, PageSize := -10 }
    { base := "count" } { base := "rows" } { countResult := .ok 0 }
    (by decide) (by norm_num)
    (by decide) (by norm_num [PaginationInput.Offset, int64Wrap])

end Wsqlx
